import Mathlib

namespace Cardless

/-!
Shallow embedding of the Cardless withdrawal-token backend
(risk engine, token service, rate limiter) and proofs about it.
JavaScript numbers are modelled as exact rationals (`ℚ`) or integers,
strings as `String` or `List Char`, and SQL NULL / absent JSON fields
as `Option`.
-/

/-- `List Char` models a JavaScript string where we need to reason about
its characters (token plaintexts). -/
abbrev JStr := List Char

/-- Risk evaluation context gathered from historical storage
(`TokenService.getRiskContext`).  `lastIp` is `none` for SQL NULL or an
absent metadata field. -/
structure RiskContext where
  velocity10m : Int
  avgAmount : ℚ
  failedAttempts24h : Int
  lastIp : Option String
  currentAmount : ℚ
deriving DecidableEq

/-- Request metadata handed to the risk engine; `ip` is `none` when the
request carried no IP. -/
structure RiskMetadata where
  ip : Option String
deriving DecidableEq

inductive RiskDecision where
  | APPROVE
  | CHALLENGE
  | REJECT
deriving DecidableEq

structure RiskResult where
  score : ℚ
  decision : RiskDecision
  reasons : List String
deriving DecidableEq

/-- JavaScript truthiness of an optional string value:
`null`/`undefined` and the empty string are falsy. -/
def jsTruthy : Option String → Bool
  | none => false
  | some s => if s = "" then false else true

/-- JavaScript `a || b` for an optional string `a`: the default is used
when `a` is absent or falsy (empty string). -/
def jsOrElse (o : Option String) (dflt : String) : String :=
  match o with
  | none => dflt
  | some s => if s = "" then dflt else s

/-- `parseFloat(x.toFixed(2))`: round to two decimal places.  All
reachable risk scores are non-negative multiples of 1/20, for which this
rounding is exact, so the floating-point subtleties of `toFixed` do not
surface. -/
def roundTo2 (q : ℚ) : ℚ := ((⌊q * 100 + 1 / 2⌋ : ℤ) : ℚ) / 100

/-- The decision thresholds applied to the final score (source lines
62-64): `> 0.7` REJECT, `≥ 0.3` CHALLENGE, otherwise APPROVE. -/
def decisionFromScore (score : ℚ) : RiskDecision :=
  if 7/10 < score then .REJECT
  else if 3/10 ≤ score then .CHALLENGE
  else .APPROVE

/-- Embedding of `RiskEngine.evaluateRedemption`: four additive signal
contributions accumulated into `score`, rounding to two decimals, cap at
1.0, then the decision thresholds.  `deviation` is consulted only under
`0 < avgAmount`, as in the source. -/
def evaluateRedemption (context : RiskContext) (metadata : RiskMetadata) : RiskResult :=
  -- 1. Velocity signal (weight 0.4 / 0.15)
  let score1 : ℚ :=
    if 3 < context.velocity10m then 2/5
    else if 1 < context.velocity10m then 3/20 else 0
  let reasons1 : List String :=
    if 3 < context.velocity10m then ["High token generation velocity (10m)"]
    else if 1 < context.velocity10m then ["Elevated token generation velocity (10m)"]
    else []
  -- 2. Behaviour signal: deviation from the average withdrawal amount
  let deviation : ℚ := |context.currentAmount - context.avgAmount| / context.avgAmount
  let devPct : Int := ⌊deviation * 100 + 1/2⌋
  let score2 : ℚ :=
    if 0 < context.avgAmount then
      (if 2 < deviation then score1 + 3/10
       else if 1 < deviation then score1 + 3/20
       else score1)
    else score1
  let reasons2 : List String :=
    if 0 < context.avgAmount then
      (if 2 < deviation then
        reasons1 ++ [s!"Significant deviation from average amount ({devPct}%)"]
       else if 1 < deviation then
        reasons1 ++ [s!"Moderate deviation from average amount ({devPct}%)"]
       else reasons1)
    else reasons1
  -- 3. Abuse signal: failed redemption attempts in the last 24h
  let score3 : ℚ :=
    if 5 < context.failedAttempts24h then score2 + 1/2
    else if 2 < context.failedAttempts24h then score2 + 1/4 else score2
  let reasons3 : List String :=
    if 5 < context.failedAttempts24h then
      reasons2 ++ ["Excessive failed redemption attempts (24h)"]
    else if 2 < context.failedAttempts24h then
      reasons2 ++ ["Elevated failed redemption attempts (24h)"]
    else reasons2
  -- 4. Geo/IP signal: `const currentIp = metadata.ip || '127.0.0.1'`
  let currentIp : String := jsOrElse metadata.ip "127.0.0.1"
  let ipMismatch : Bool := jsTruthy context.lastIp && decide (context.lastIp ≠ some currentIp)
  let score4 : ℚ := if ipMismatch then score3 + 1/5 else score3
  let reasons4 : List String :=
    if ipMismatch then reasons3 ++ ["IP address mismatch from last success"] else reasons3
  -- `score = Math.min(1.0, parseFloat(score.toFixed(2)))`
  let score : ℚ := min 1 (roundTo2 score4)
  ⟨score, decisionFromScore score, reasons4⟩

/-- Spec §4.3 signal table, velocity row: `> 3` adds 0.40, `> 1` adds 0.15. -/
def contribVelocity (context : RiskContext) : ℚ :=
  if 3 < context.velocity10m then 2/5
  else if 1 < context.velocity10m then 3/20 else 0

/-- Spec §4.3 signal table, amount-deviation row; contributes 0 when
`avgAmount = 0` (deviation undefined). -/
def contribAmount (context : RiskContext) : ℚ :=
  if 0 < context.avgAmount then
    (if 2 < |context.currentAmount - context.avgAmount| / context.avgAmount then 3/10
     else if 1 < |context.currentAmount - context.avgAmount| / context.avgAmount then 3/20
     else 0)
  else 0

/-- Spec §4.3 signal table, failed-attempts row. -/
def contribFailed (context : RiskContext) : ℚ :=
  if 5 < context.failedAttempts24h then 1/2
  else if 2 < context.failedAttempts24h then 1/4 else 0

/-- Spec §4.3 signal table, IP row: `lastIp` exists (a non-empty string)
and differs from the current IP. -/
def contribIp (context : RiskContext) (currentIp : String) : ℚ :=
  match context.lastIp with
  | none => 0
  | some s => if s ≠ "" ∧ s ≠ currentIp then 1/5 else 0

/-- Spec §4.3: additive signal contributions, rounded to 2 decimals and
capped at 1.0. -/
def specRiskScore (context : RiskContext) (metadata : RiskMetadata) : ℚ :=
  min 1 (roundTo2 (contribVelocity context + contribAmount context + contribFailed context
    + contribIp context (jsOrElse metadata.ip "127.0.0.1")))

/-- The worked example from the spec (§8 scenario 4). -/
def exampleRiskContext : RiskContext :=
  { velocity10m := 4
    avgAmount := 100
    failedAttempts24h := 6
    lastIp := some "1.1.1.1"
    currentAmount := 100 }

def exampleRiskMetadata : RiskMetadata := { ip := some "2.2.2.2" }

/-! ## Crypto primitives -/

/-- The byte-level hash environment: an abstract SHA-256 compression
function and the process-wide pepper.  Bytes are modelled as `List Nat`;
`sha256` is kept abstract because the claims only concern how its input
is assembled. -/
structure CryptoCfg where
  sha256 : List Nat → List Nat
  pepper : List Nat

/-- UTF-8 bytes of a plaintext token.  Token plaintexts are ASCII
(`A-Z0-9` plus `-`), for which UTF-8 agrees with the code points. -/
def utf8Bytes (s : JStr) : List Nat := s.map Char.toNat

/-- `hash.update(bytes)` on a Node `crypto` hash object: the object
accumulates the concatenation of all updates. -/
def hashUpdate (acc : List Nat) (bytes : List Nat) : List Nat := acc ++ bytes

/-- Embedding of `TokenService.hashToken(plaintextToken, salt)`:
three chained updates — pepper, plaintext, salt — then `digest()`. -/
def hashTokenC (cfg : CryptoCfg) (plaintextToken : JStr) (salt : List Nat) : List Nat :=
  cfg.sha256 (hashUpdate (hashUpdate (hashUpdate [] cfg.pepper) (utf8Bytes plaintextToken)) salt)

/-! ## Database model -/

inductive TokenStatus where
  | ACTIVE
  | USED
  | EXPIRED
deriving DecidableEq

/-- A row of the `tokens` table (per-token-salt variant).  The source's
`prefix` column is called `pfx` here (`prefix` is reserved in Lean).
Instants are integers (milliseconds since epoch). -/
structure TokenRow where
  id : Nat
  account_id : String
  amount : Int
  token_hash : List Nat
  salt : List Nat
  pfx : JStr
  status : TokenStatus
  expires_at : Int
  used_at : Option Int
deriving DecidableEq

/-- A row of the immutable `transactions` ledger. -/
structure TransactionRow where
  id : Nat
  account_id : String
  token_id : Nat
  type : String
  amount : Int
  status : String
deriving DecidableEq

/-- A row of the `redemption_attempts` evidence table; `metadata` holds
the `JSON.stringify(metadata)` payload opaquely. -/
structure AttemptRow where
  token_id : Nat
  agent_id : String
  result : String
  metadata : String
deriving DecidableEq

/-- The persistent database state touched by the token service.
`nextTokenId`/`nextTxnId` model the id sequences of the two tables. -/
structure DbState where
  tokens : List TokenRow
  transactions : List TransactionRow
  attempts : List AttemptRow
  nextTokenId : Nat
  nextTxnId : Nat
deriving DecidableEq

/-! ## Redemption -/

inductive RedeemResult where
  | SUCCESS
  | INVALID
  | EXPIRED_OR_USED
deriving DecidableEq

/-- Result of one `redeemWithdrawalToken` call.  `dbAccessed` records
whether the call entered the database transaction (the two early
`INVALID` returns happen before any DB work). -/
structure RedeemOutcome where
  result : RedeemResult
  tokenId : Option Nat
  transactionId : Option Nat
  dbAccessed : Bool
  state : DbState
deriving DecidableEq

/-- JavaScript `fullToken.split('-')`. -/
def splitOnDash : JStr → List JStr
  | [] => [[]]
  | c :: rest =>
    let r := splitOnDash rest
    if c = '-' then [] :: r
    else
      match r with
      | [] => [[c]]
      | h :: t => (c :: h) :: t

/-- Embedding of `TokenService.redeemWithdrawalToken` (per-token-salt
variant): structural parameter checks, candidate scan over
`prefix`-matching ACTIVE unexpired rows, hash verification
(`timingSafeEqual` modelled as equality), locked re-read by id,
single-use update, ledger insert and attempt insert.  The whole
transaction is modelled atomically at one instant `now`. -/
def redeemWithdrawalToken (cfg : CryptoCfg) (now : Int) (s : DbState)
    (fullToken : JStr) (agentId : String) (metadata : String) : RedeemOutcome :=
  if fullToken = [] ∨ '-' ∉ fullToken ∨ agentId = "" then
    ⟨.INVALID, none, none, false, s⟩
  else
    let parts := splitOnDash fullToken
    let pfx := parts.getD 0 []
    let coreToken := parts.getD 1 []
    if pfx.length ≠ 4 ∨ coreToken.length ≠ 8 then
      ⟨.INVALID, none, none, false, s⟩
    else
      let candidateTokens := s.tokens.filter fun t =>
        decide (t.pfx = pfx ∧ t.status = TokenStatus.ACTIVE ∧ now < t.expires_at)
      match candidateTokens.find? (fun t => decide (hashTokenC cfg fullToken t.salt = t.token_hash)) with
      | none => ⟨.INVALID, none, none, true, s⟩
      | some m =>
        match s.tokens.find? (fun t => decide (t.id = m.id)) with
        | none => ⟨.EXPIRED_OR_USED, none, none, true, s⟩
        | some token =>
          if token.status ≠ TokenStatus.ACTIVE ∨ now ≥ token.expires_at then
            ⟨.EXPIRED_OR_USED, none, none, true, s⟩
          else
            let tokens2 := s.tokens.map fun t =>
              if t.id = token.id ∧ t.status = TokenStatus.ACTIVE then
                { t with status := TokenStatus.USED, used_at := some now }
              else t
            let txn : TransactionRow :=
              ⟨s.nextTxnId, token.account_id, token.id, "WITHDRAWAL", token.amount, "SUCCESS"⟩
            let att : AttemptRow := ⟨token.id, agentId, "SUCCESS", metadata⟩
            ⟨.SUCCESS, some token.id, some txn.id, true,
             { s with tokens := tokens2
                      transactions := s.transactions ++ [txn]
                      attempts := s.attempts ++ [att]
                      nextTxnId := s.nextTxnId + 1 }⟩

/-! ## Minting -/

/-- Strict uppercase alphanumeric charset of the per-token-salt variant. -/
def charsetChars : JStr := "ABCDEFGHIJKLMNOPQRSTUVWXYZ0123456789".toList

/-- `generateRandomToken(n)`: `n` draws of `crypto.randomInt(0, 36)`
indexing into the charset.  The CSPRNG values are an input stream of
`Fin 36` (randomInt guarantees the range). -/
def tokenFromFn (n : Nat) (f : Nat → Fin 36) : JStr :=
  (List.range n).map fun i => charsetChars.getD (f i).val 'A'

/-- The random material drawn by one mint attempt: CSPRNG streams for the
4-char prefix and the 8-char core, and the 16 random salt bytes. -/
structure MintRandom where
  prefixInts : Nat → Fin 36
  coreInts : Nat → Fin 36
  salt : List Nat

/-- `PREFIX-CORE` plaintext assembled by one mint attempt. -/
def mintPlaintext (r : MintRandom) : JStr :=
  tokenFromFn 4 r.prefixInts ++ '-' :: tokenFromFn 8 r.coreInts

/-- The value returned by a successful `generateWithdrawalToken`. -/
structure MintSuccess where
  id : Nat
  token : JStr
  amount : Int
  expiresAt : Int
deriving DecidableEq

inductive MintError where
  /-- Joi validation failure (thrown before the retry loop). -/
  | invalidParams
  /-- `'Failed to generate unique token after maximum retries'`. -/
  | exhausted
  /-- A non-23505 database error, rethrown as-is. -/
  | dbError (code : String)
  /-- Falling out of the `while` loop, which the source cannot reach
  (the loop always returns or throws). -/
  | loopFallthrough
deriving DecidableEq

/-- A database error as seen in the `catch` block (`err.code`). -/
structure DbErr where
  code : String
deriving DecidableEq

structure MintOutcome where
  result : Except MintError MintSuccess
  state : DbState
  /-- number of `INSERT` attempts actually issued -/
  insertAttempts : Nat

def MAX_RETRIES : Nat := 3

def isHexDigit (c : Char) : Bool :=
  c.isDigit || ('a' ≤ c && c ≤ 'f') || ('A' ≤ c && c ≤ 'F')

/-- `Joi.string().uuid()` modelled as the canonical 8-4-4-4-12 hex
layout. -/
def isUuidString (s : String) : Bool :=
  let cs := s.toList
  cs.length = 36 &&
  (List.range 36).all fun i =>
    let c := cs.getD i ' '
    if i = 8 ∨ i = 13 ∨ i = 18 ∨ i = 23 then c = '-' else isHexDigit c

/-- One iteration of the mint loop body: draw prefix, core and salt,
hash, and `INSERT`.  `fault` injects an arbitrary database error for
this attempt; otherwise the insert fails with code 23505 exactly when
the unique index on `token_hash` is violated. -/
def mintAttemptInsert (cfg : CryptoCfg) (accountId : String) (amount : Int)
    (now ttlMs : Int) (r : MintRandom) (fault : Option String) (s : DbState) :
    Except DbErr (MintSuccess × DbState) :=
  let plaintextToken := mintPlaintext r
  let tokenHash := hashTokenC cfg plaintextToken r.salt
  let expiresAt := now + ttlMs
  match fault with
  | some code => .error ⟨code⟩
  | none =>
    if s.tokens.any (fun t => decide (t.token_hash = tokenHash)) then
      .error ⟨"23505"⟩
    else
      .ok (⟨s.nextTokenId, plaintextToken, amount, expiresAt⟩,
           { s with
              tokens := s.tokens ++
                [⟨s.nextTokenId, accountId, amount, tokenHash, r.salt,
                  tokenFromFn 4 r.prefixInts, TokenStatus.ACTIVE, expiresAt, none⟩]
              nextTokenId := s.nextTokenId + 1 })

/-- The `while (retries < MAX_RETRIES)` loop.  `fuel` maintains
`MAX_RETRIES - retries` (so `fuel = 0` is the unreachable loop exit and
`fuel = 1` means the next 23505 exhausts the retries); `i` counts insert
attempts issued so far and indexes the random/fault streams. -/
def mintGo (cfg : CryptoCfg) (accountId : String) (amount : Int)
    (rand : Nat → MintRandom) (faults : Nat → Option String) (now ttlMs : Int) :
    Nat → Nat → DbState → MintOutcome
  | 0, i, s => ⟨.error .loopFallthrough, s, i⟩
  | fuel + 1, i, s =>
    match mintAttemptInsert cfg accountId amount now ttlMs (rand i) (faults i) s with
    | .ok (res, s2) => ⟨.ok res, s2, i + 1⟩
    | .error e =>
      if e.code = "23505" then
        -- `retries + 1 >= MAX_RETRIES` is `fuel = 0` here
        if fuel = 0 then ⟨.error .exhausted, s, i + 1⟩
        else mintGo cfg accountId amount rand faults now ttlMs fuel (i + 1) s
      else ⟨.error (.dbError e.code), s, i + 1⟩

/-- Embedding of `TokenService.generateWithdrawalToken`: Joi parameter
validation, then the collision-retry loop. -/
def generateWithdrawalToken (cfg : CryptoCfg) (s : DbState) (accountId : String)
    (amount : Int) (rand : Nat → MintRandom) (faults : Nat → Option String)
    (now ttlMs : Int) : MintOutcome :=
  if isUuidString accountId ∧ 0 < amount then
    mintGo cfg accountId amount rand faults now ttlMs MAX_RETRIES 0 s
  else
    ⟨.error .invalidParams, s, 0⟩

/-! ## Rate limiter -/

/-- The Redis responses available to one middleware invocation, in call
order: each sorted-set command either returns a value or throws. -/
structure RedisEnv where
  zremrangebyscore : Except String Int
  zcard : Except String Int
  ttl : Except String Int
  zadd : Except String Int
  expire : Except String Int

/-- Observable outcome of one rate-limiter middleware invocation.
`proceeded` means control returned normally so the downstream handler
runs; `secLogs` are the `logSecurity` events (level, message). -/
structure LimiterOutcome where
  status429 : Bool
  proceeded : Bool
  secLogs : List (String × String)
  retryAfter : Option Int
  headers : List (String × Int)
deriving DecidableEq

/-- The `catch` branch: log a SECURITY error and fall open. -/
def limiterFailOpen : LimiterOutcome :=
  ⟨false, true, [("error", "Rate limiter Redis error")], none, []⟩

/-- Embedding of the middleware produced by `createRateLimiter`:
evict old members, count, 429 when at the limit, otherwise record the
request; any Redis failure is caught, security-logged and ignored.
The deferred `zrem` cleanup of `skipSuccessfulRequests` runs after the
response and is outside this invocation. -/
def rateLimiterMiddleware (windowMs maxRequests : Int) (env : RedisEnv) (now : Int) :
    LimiterOutcome :=
  match env.zremrangebyscore with
  | .error _ => limiterFailOpen
  | .ok _ =>
    match env.zcard with
    | .error _ => limiterFailOpen
    | .ok currentCount =>
      if currentCount ≥ maxRequests then
        match env.ttl with
        | .error _ => limiterFailOpen
        | .ok ttl =>
          let resetTime := now + (if 0 < ttl then ttl * 1000 else windowMs)
          ⟨true, false, [("warn", "Rate limit exceeded")],
           some ⌈((resetTime - now : ℤ) : ℚ) / 1000⌉, []⟩
      else
        match env.zadd with
        | .error _ => limiterFailOpen
        | .ok _ =>
          match env.expire with
          | .error _ => limiterFailOpen
          | .ok _ =>
            ⟨false, true, [], none,
             [("X-RateLimit-Limit", maxRequests),
              ("X-RateLimit-Remaining", max 0 (maxRequests - currentCount - 1))]⟩

/-! ## The spec's token pattern (§4.2.2 / §6) -/

def isUpperAlnum (c : Char) : Bool :=
  ('A' ≤ c && c ≤ 'Z') || ('0' ≤ c && c ≤ '9')

/-- The spec's redemption input pattern `[A-Z0-9]{4}-[A-Z0-9]{8}`
(anchored at both ends). -/
def matchesTokenPattern (s : JStr) : Bool :=
  s.length = 13 && (s.take 4).all isUpperAlnum && s.getD 4 ' ' = '-'
    && (s.drop 5).all isUpperAlnum

/-! ## Concrete instances used by closed-form runs -/

/-- A degenerate hash environment (identity digest, empty pepper) for
concrete executions; none of the control flow depends on the digest
function itself. -/
def idCryptoCfg : CryptoCfg := ⟨fun bytes => bytes, []⟩

def emptyDb : DbState := ⟨[], [], [], 0, 0⟩

/-- A stored ACTIVE token whose plaintext under `idCryptoCfg` is
`ABCD-EFGHIJKL` (empty salt, hash = UTF-8 bytes), expiring at t=100. -/
def demoTokenRow : TokenRow :=
  ⟨1, "acc-1", 5, utf8Bytes "ABCD-EFGHIJKL".toList, [], "ABCD".toList,
   TokenStatus.ACTIVE, 100, none⟩

def oneTokenDb : DbState := ⟨[demoTokenRow], [], [], 2, 7⟩

/-- CSPRNG draws that produce the all-`A` token `AAAA-AAAAAAAA` with an
empty salt. -/
def demoRand : MintRandom := ⟨fun _ => 0, fun _ => 0, []⟩

/-- CSPRNG draws producing `AAAA-AAAAAAAA` with a 16-byte salt. -/
def demoRand16 : MintRandom := ⟨fun _ => 0, fun _ => 0, List.replicate 16 7⟩

def demoUuid : String := "123e4567-e89b-12d3-a456-426614174000"

/-! ## Helper lemmas: lists and token strings -/

theorem find?_append_of_none {α : Type} (p : α → Bool) (l1 l2 : List α)
    (h : l1.find? p = none) : (l1 ++ l2).find? p = l2.find? p := by
  induction l1 with
  | nil => simp
  | cons x xs ih =>
    cases hx : p x with
    | true => simp [List.find?, hx] at h
    | false =>
      simp only [List.find?, hx] at h
      simpa only [List.cons_append, List.find?, hx] using ih h

theorem map_eq_self_of_fix {α : Type} (l : List α) (f : α → α) (h : ∀ x ∈ l, f x = x) :
    l.map f = l := by
  induction l with
  | nil => rfl
  | cons x xs ih => simp_all

theorem splitOnDash_no_dash (l : JStr) (h : '-' ∉ l) : splitOnDash l = [l] := by
  induction l with
  | nil => rfl
  | cons c cs ih =>
    have hc : ¬(c = '-') := fun e => h (by rw [e]; exact List.mem_cons_self _ _)
    have hcs : '-' ∉ cs := fun hm => h (List.mem_cons_of_mem _ hm)
    simp only [splitOnDash, if_neg hc, ih hcs]

theorem splitOnDash_split (p c : JStr) (hp : '-' ∉ p) (hc : '-' ∉ c) :
    splitOnDash (p ++ '-' :: c) = [p, c] := by
  induction p with
  | nil => simp [splitOnDash, splitOnDash_no_dash c hc]
  | cons x xs ih =>
    have hx : ¬(x = '-') := fun e => hp (by rw [e]; exact List.mem_cons_self _ _)
    have hxs : '-' ∉ xs := fun hm => hp (List.mem_cons_of_mem _ hm)
    show splitOnDash (x :: (xs ++ '-' :: c)) = [x :: xs, c]
    simp only [splitOnDash, if_neg hx, ih hxs]

theorem tokenFromFn_length (n : Nat) (f : Nat → Fin 36) : (tokenFromFn n f).length = n := by
  simp [tokenFromFn]

theorem charsetChars_getD_ne_dash : ∀ k, k < 36 →
    charsetChars.getD k 'A' ≠ '-' := by decide

theorem tokenFromFn_no_dash (n : Nat) (f : Nat → Fin 36) : '-' ∉ tokenFromFn n f := by
  intro hm
  simp only [tokenFromFn, List.mem_map] at hm
  obtain ⟨i, _, he⟩ := hm
  exact charsetChars_getD_ne_dash (f i).val (f i).isLt he

theorem mintPlaintext_has_dash (r : MintRandom) : '-' ∈ mintPlaintext r := by
  unfold mintPlaintext
  exact List.mem_append_right _ (List.mem_cons_self _ _)

theorem mintPlaintext_ne_nil (r : MintRandom) : mintPlaintext r ≠ [] := by
  unfold mintPlaintext
  intro h
  have := congrArg List.length h
  simp at this

theorem mintPlaintext_split (r : MintRandom) :
    splitOnDash (mintPlaintext r) = [tokenFromFn 4 r.prefixInts, tokenFromFn 8 r.coreInts] :=
  splitOnDash_split _ _ (tokenFromFn_no_dash 4 r.prefixInts) (tokenFromFn_no_dash 8 r.coreInts)

/-! ## Helper lemmas: risk engine -/

/-- The decision is the threshold function of the (rounded, capped)
score. -/
theorem evaluateRedemption_decision_eq (c : RiskContext) (m : RiskMetadata) :
    (evaluateRedemption c m).decision = decisionFromScore (evaluateRedemption c m).score := rfl

set_option maxHeartbeats 1600000 in
/-- The accumulated score equals the spec-style sum of the four signal
contributions, rounded and capped. -/
theorem evaluateRedemption_score_eq (c : RiskContext) (m : RiskMetadata) :
    (evaluateRedemption c m).score = specRiskScore c m := by
  unfold evaluateRedemption specRiskScore contribVelocity contribAmount contribFailed contribIp
  dsimp only
  congr 1
  congr 1
  cases hIp : c.lastIp with
  | none =>
    simp only [jsTruthy, Bool.false_and, Bool.false_eq_true, if_false]
    split_ifs <;> ring
  | some ip =>
    by_cases hs : ip = ""
    · subst hs
      simp [jsTruthy]
      split_ifs <;> ring
    · by_cases hc : ip = jsOrElse m.ip "127.0.0.1"
      · simp [jsTruthy, hs, hc]
        split_ifs <;> ring
      · simp [jsTruthy, hs, hc]
        split_ifs <;> ring

/-- The risk engine consumes the request metadata only through
`metadata.ip || '127.0.0.1'`. -/
theorem evaluateRedemption_ip_congr (c : RiskContext) (m1 m2 : RiskMetadata)
    (h : jsOrElse m1.ip "127.0.0.1" = jsOrElse m2.ip "127.0.0.1") :
    evaluateRedemption c m1 = evaluateRedemption c m2 := by
  unfold evaluateRedemption
  rw [h]

/-! ## Claim C5 -/

/-- Claim C5: the decision is REJECT exactly when score > 0.7, CHALLENGE
exactly when 0.3 ≤ score ≤ 0.7, APPROVE exactly when score < 0.3; in
particular scores of exactly 0.3 and exactly 0.7 both yield CHALLENGE. -/
theorem c5_decision_thresholds (c : RiskContext) (m : RiskMetadata) :
    ((evaluateRedemption c m).decision = .REJECT ↔ 7/10 < (evaluateRedemption c m).score)
    ∧ ((evaluateRedemption c m).decision = .CHALLENGE ↔
        (3/10 ≤ (evaluateRedemption c m).score ∧ (evaluateRedemption c m).score ≤ 7/10))
    ∧ ((evaluateRedemption c m).decision = .APPROVE ↔ (evaluateRedemption c m).score < 3/10)
    ∧ ((evaluateRedemption c m).score = 3/10 → (evaluateRedemption c m).decision = .CHALLENGE)
    ∧ ((evaluateRedemption c m).score = 7/10 → (evaluateRedemption c m).decision = .CHALLENGE) := by
  rw [evaluateRedemption_decision_eq]
  unfold decisionFromScore
  generalize (evaluateRedemption c m).score = q
  split_ifs with h1 h2
  · refine ⟨iff_of_true rfl h1, ?_, ?_, ?_, ?_⟩
    · exact iff_of_false (by simp) (fun h => by linarith [h.2])
    · exact iff_of_false (by simp) (by intro h; linarith)
    · intro hq; rw [hq] at h1; norm_num at h1
    · intro hq; rw [hq] at h1; norm_num at h1
  · refine ⟨iff_of_false (by simp) h1, iff_of_true rfl ⟨h2, le_of_not_lt h1⟩, ?_, ?_, ?_⟩
    · exact iff_of_false (by simp) (by intro h; linarith)
    · intro _; rfl
    · intro _; rfl
  · refine ⟨iff_of_false (by simp) h1, ?_, iff_of_true rfl (lt_of_not_le h2), ?_, ?_⟩
    · exact iff_of_false (by simp) (fun h => h2 h.1)
    · intro hq; exact (h2 (le_of_eq hq.symm)).elim
    · intro hq; exact (h2 (by rw [hq]; norm_num)).elim

/-- Witness for C5 at a concrete boundary input: velocity 2 (+0.15) and a
150% amount deviation (+0.15) score exactly 0.3, decided CHALLENGE. -/
theorem c5_decision_thresholds_witness :
    (evaluateRedemption ⟨2, 100, 0, none, 250⟩ ⟨none⟩).score = 3/10
    ∧ (evaluateRedemption ⟨2, 100, 0, none, 250⟩ ⟨none⟩).decision = .CHALLENGE := by
  have hs : (evaluateRedemption ⟨2, 100, 0, none, 250⟩ ⟨none⟩).score = 3/10 := by
    norm_num [evaluateRedemption, jsTruthy, jsOrElse, roundTo2]
  exact ⟨hs, (c5_decision_thresholds ⟨2, 100, 0, none, 250⟩ ⟨none⟩).2.2.2.1 hs⟩

/-! ## Claim C6 -/

/-- Claim C6: the score is the sum of the four per-signal contributions,
capped at 1.0 and rounded to two decimals; the spec's worked example
(velocity 4, avg 100, failed 6, lastIp 1.1.1.1, current 100, request IP
2.2.2.2) scores 1.0 with decision REJECT. -/
theorem c6_score_is_contribution_sum :
    (∀ c m, (evaluateRedemption c m).score = specRiskScore c m)
    ∧ (evaluateRedemption exampleRiskContext exampleRiskMetadata).score = 1
    ∧ (evaluateRedemption exampleRiskContext exampleRiskMetadata).decision = .REJECT := by
  have hex : (evaluateRedemption exampleRiskContext exampleRiskMetadata).score = 1 := by
    norm_num [evaluateRedemption, exampleRiskContext, exampleRiskMetadata, jsTruthy,
      jsOrElse, roundTo2]
    rw [if_pos (by simp)]
    norm_num
  refine ⟨fun c m => evaluateRedemption_score_eq c m, hex, ?_⟩
  rw [evaluateRedemption_decision_eq, hex]
  norm_num [decisionFromScore]

/-! ## Claim C10 -/

/-- Counterexample to claim C10 as stated: a context whose `lastIp` is
the empty string is non-null and differs from `'127.0.0.1'`, yet with
absent metadata IP the 0.2 contribution is NOT added (the source guards
on JavaScript truthiness, which the empty string fails): the score is 0,
not 0.2. -/
theorem c10_counterexample :
    (some "" ≠ (none : Option String))
    ∧ ((some "" : Option String) ≠ some "127.0.0.1")
    ∧ (evaluateRedemption ⟨0, 0, 0, some "", 0⟩ ⟨none⟩).score = 0
    ∧ (evaluateRedemption ⟨0, 0, 0, some "", 0⟩ ⟨none⟩).score ≠ 1/5 := by
  refine ⟨by simp, by simp, ?_, ?_⟩ <;>
    norm_num [evaluateRedemption, jsTruthy, jsOrElse, roundTo2]

/-- Claim C10 (amended): when `metadata.ip` is absent the engine
substitutes `'127.0.0.1'` (the evaluation coincides with one whose
metadata carries that IP); consequently for every context whose `lastIp`
is a NON-EMPTY string different from `'127.0.0.1'`, the 0.2 IP-mismatch
contribution is added. -/
theorem c10_default_ip_amended (c : RiskContext) (m : RiskMetadata) (s : String)
    (hm : m.ip = none) (hl : c.lastIp = some s) (hs : s ≠ "") (hd : s ≠ "127.0.0.1") :
    evaluateRedemption c m = evaluateRedemption c ⟨some "127.0.0.1"⟩
    ∧ (evaluateRedemption c m).score =
        min 1 (roundTo2 (contribVelocity c + contribAmount c + contribFailed c + 1/5)) := by
  constructor
  · exact evaluateRedemption_ip_congr c m ⟨some "127.0.0.1"⟩ (by simp [hm, jsOrElse])
  · rw [evaluateRedemption_score_eq]
    unfold specRiskScore
    have : contribIp c (jsOrElse m.ip "127.0.0.1") = 1/5 := by
      simp [contribIp, hl, hm, jsOrElse, hs, hd]
    rw [this]

/-! ## Helper lemmas: redemption -/

/-- If no stored row both passes the candidate filter (prefix-ACTIVE-
unexpired) and verifies against the presented plaintext, the redemption
returns INVALID and leaves the database unchanged.  This covers the
malformed-input early returns as well. -/
theorem redeem_no_match_invalid (cfg : CryptoCfg) (now : Int) (s : DbState)
    (fullToken : JStr) (agentId metadata : String)
    (h : ∀ t ∈ s.tokens, t.status = TokenStatus.ACTIVE → now < t.expires_at →
         hashTokenC cfg fullToken t.salt ≠ t.token_hash) :
    (redeemWithdrawalToken cfg now s fullToken agentId metadata).result = .INVALID
    ∧ (redeemWithdrawalToken cfg now s fullToken agentId metadata).state = s := by
  unfold redeemWithdrawalToken
  split
  · exact ⟨rfl, rfl⟩
  · dsimp only
    split
    · exact ⟨rfl, rfl⟩
    · split
      · exact ⟨rfl, rfl⟩
      · next m hm =>
        exfalso
        have hpred := List.find?_some hm
        have hmem := List.mem_of_find?_eq_some hm
        rw [List.mem_filter] at hmem
        obtain ⟨hts, hcand⟩ := hmem
        rw [decide_eq_true_eq] at hpred hcand
        exact h m hts hcand.2.1 hcand.2.2 hpred

/-- A SUCCESS outcome requires a stored row that is ACTIVE and strictly
unexpired at the redemption instant. -/
theorem redeem_success_active (cfg : CryptoCfg) (now : Int) (s : DbState)
    (fullToken : JStr) (agentId metadata : String)
    (h : (redeemWithdrawalToken cfg now s fullToken agentId metadata).result = .SUCCESS) :
    ∃ t ∈ s.tokens, t.status = TokenStatus.ACTIVE ∧ now < t.expires_at := by
  unfold redeemWithdrawalToken at h
  split at h
  · simp at h
  · dsimp only at h
    split at h
    · simp at h
    · split at h
      · simp at h
      · split at h
        · simp at h
        · next token htok =>
          split at h
          · simp at h
          · next hguard =>
            push_neg at hguard
            exact ⟨token, List.mem_of_find?_eq_some htok, hguard.1, hguard.2⟩

/-- The constant-time verification loop stops at a hash-matching row
appended after non-matching rows. -/
theorem find?_last_hash (cfg : CryptoCfg) (fullToken : JStr) (l : List TokenRow)
    (row : TokenRow) (hrow : hashTokenC cfg fullToken row.salt = row.token_hash)
    (hmiss : ∀ t ∈ l, hashTokenC cfg fullToken t.salt ≠ t.token_hash) :
    (l ++ [row]).find? (fun t => decide (hashTokenC cfg fullToken t.salt = t.token_hash))
      = some row := by
  rw [find?_append_of_none _ _ _ (List.find?_eq_none.mpr (fun t ht hp =>
    hmiss t ht (by rw [decide_eq_true_eq] at hp; exact hp)))]
  exact List.find?_cons_of_pos _ (decide_eq_true hrow)

/-- The locked re-read by id finds a row appended after rows with other
ids. -/
theorem find?_last_id (l : List TokenRow) (row : TokenRow) (k : Nat)
    (hrow : row.id = k) (hmiss : ∀ t ∈ l, t.id ≠ k) :
    (l ++ [row]).find? (fun t => decide (t.id = k)) = some row := by
  rw [find?_append_of_none _ _ _ (List.find?_eq_none.mpr (fun t ht hp =>
    hmiss t ht (by rw [decide_eq_true_eq] at hp; exact hp)))]
  exact List.find?_cons_of_pos _ (decide_eq_true hrow)

/-- Redeeming a freshly minted row (appended last, ACTIVE, unexpired,
hash-verifying, id-fresh) succeeds: the row flips to USED, one ledger
row and one SUCCESS attempt row are appended. -/
theorem redeem_minted_success
    (cfg : CryptoCfg) (now : Int) (old : List TokenRow) (trs : List TransactionRow)
    (atts : List AttemptRow) (ntok ntx : Nat) (r : MintRandom) (rowId : Nat)
    (accId : String) (amount : Int) (expAt : Int) (agentId metadata : String)
    (hAgent : agentId ≠ "") (hNow : now < expAt)
    (hFresh : ∀ t ∈ old, hashTokenC cfg (mintPlaintext r) t.salt ≠ t.token_hash)
    (hIds : ∀ t ∈ old, t.id ≠ rowId) :
    redeemWithdrawalToken cfg now
        ⟨old ++ [⟨rowId, accId, amount, hashTokenC cfg (mintPlaintext r) r.salt, r.salt,
                 tokenFromFn 4 r.prefixInts, TokenStatus.ACTIVE, expAt, none⟩],
         trs, atts, ntok, ntx⟩
        (mintPlaintext r) agentId metadata
      = ⟨.SUCCESS, some rowId, some ntx, true,
         ⟨old ++ [⟨rowId, accId, amount, hashTokenC cfg (mintPlaintext r) r.salt, r.salt,
                  tokenFromFn 4 r.prefixInts, TokenStatus.USED, expAt, some now⟩],
          trs ++ [⟨ntx, accId, rowId, "WITHDRAWAL", amount, "SUCCESS"⟩],
          atts ++ [⟨rowId, agentId, "SUCCESS", metadata⟩],
          ntok, ntx + 1⟩⟩ := by
  unfold redeemWithdrawalToken
  rw [if_neg (by
    push_neg
    exact ⟨mintPlaintext_ne_nil r, mintPlaintext_has_dash r, hAgent⟩)]
  rw [mintPlaintext_split]
  dsimp only [List.getD_cons_zero, List.getD_cons_succ]
  rw [if_neg (by simp [tokenFromFn_length])]
  rw [List.filter_append]
  simp only [List.filter_cons, List.filter_nil]
  rw [if_pos (decide_eq_true ⟨trivial, trivial, hNow⟩)]
  rw [find?_last_hash cfg _ _ _ rfl (fun t ht => hFresh t (List.mem_of_mem_filter ht))]
  dsimp only
  rw [find?_last_id old _ rowId rfl (fun t ht => hIds t ht)]
  dsimp only
  rw [if_neg (by
    push_neg
    exact ⟨rfl, hNow⟩)]
  congr 2
  rw [List.map_append]
  congr 1
  · exact map_eq_self_of_fix old _ (fun t ht => if_neg (fun hh => hIds t ht hh.1))
  · simp

/-! ## Helper lemmas: minting -/

/-- The retry loop issues at most `i + fuel` inserts when entered with
`i` already issued. -/
theorem mintGo_attempts_le (cfg : CryptoCfg) (accountId : String) (amount : Int)
    (rand : Nat → MintRandom) (faults : Nat → Option String) (now ttlMs : Int) :
    ∀ (fuel i : Nat) (s : DbState),
      (mintGo cfg accountId amount rand faults now ttlMs fuel i s).insertAttempts ≤ i + fuel := by
  intro fuel
  induction fuel with
  | zero => intro i s; simp [mintGo]
  | succ fuel ih =>
    intro i s
    simp only [mintGo]
    cases hA : mintAttemptInsert cfg accountId amount now ttlMs (rand i) (faults i) s with
    | ok pr => obtain ⟨r1, s2⟩ := pr; dsimp only; omega
    | error e =>
      dsimp only
      by_cases he : e.code = "23505"
      · rw [if_pos he]
        by_cases hf : fuel = 0
        · rw [if_pos hf]; dsimp only; omega
        · rw [if_neg hf]
          have := ih (i + 1) s
          omega
      · rw [if_neg he]
        dsimp only
        omega

/-- A successful run of the retry loop comes from a single successful
insert attempt `j ≥ i` against the unchanged initial state (failed
attempts do not mutate the database). -/
theorem mintGo_ok_attempt (cfg : CryptoCfg) (accountId : String) (amount : Int)
    (rand : Nat → MintRandom) (faults : Nat → Option String) (now ttlMs : Int) :
    ∀ (fuel i : Nat) (s : DbState) (res : MintSuccess),
      (mintGo cfg accountId amount rand faults now ttlMs fuel i s).result = .ok res →
      ∃ j s2, i ≤ j
        ∧ mintAttemptInsert cfg accountId amount now ttlMs (rand j) (faults j) s
            = .ok (res, s2)
        ∧ mintGo cfg accountId amount rand faults now ttlMs fuel i s = ⟨.ok res, s2, j + 1⟩ := by
  intro fuel
  induction fuel with
  | zero => intro i s res h; simp [mintGo] at h
  | succ fuel ih =>
    intro i s res h
    simp only [mintGo] at h ⊢
    cases hA : mintAttemptInsert cfg accountId amount now ttlMs (rand i) (faults i) s with
    | ok pr =>
      obtain ⟨r1, s2⟩ := pr
      rw [hA] at h
      dsimp only at h ⊢
      rw [Except.ok.injEq] at h
      exact ⟨i, s2, le_refl i, by rw [hA, h], by rw [h]⟩
    | error e =>
      rw [hA] at h
      dsimp only at h ⊢
      by_cases he : e.code = "23505"
      · rw [if_pos he] at h ⊢
        by_cases hf : fuel = 0
        · rw [if_pos hf] at h
          simp at h
        · rw [if_neg hf] at h ⊢
          obtain ⟨j, s2, hij, hins, heq⟩ := ih (i + 1) s res h
          exact ⟨j, s2, by omega, hins, heq⟩
      · rw [if_neg he] at h
        simp at h

/-- Inversion of a successful insert attempt: the returned value and the
inserted row are fully determined by the drawn randomness. -/
theorem mintAttemptInsert_ok_inv (cfg : CryptoCfg) (accountId : String) (amount : Int)
    (now ttlMs : Int) (r : MintRandom) (fault : Option String) (s : DbState)
    (res : MintSuccess) (s2 : DbState)
    (h : mintAttemptInsert cfg accountId amount now ttlMs r fault s = .ok (res, s2)) :
    res = ⟨s.nextTokenId, mintPlaintext r, amount, now + ttlMs⟩
    ∧ s2 = { s with
        tokens := s.tokens ++ [⟨s.nextTokenId, accountId, amount,
          hashTokenC cfg (mintPlaintext r) r.salt, r.salt,
          tokenFromFn 4 r.prefixInts, TokenStatus.ACTIVE, now + ttlMs, none⟩],
        nextTokenId := s.nextTokenId + 1 } := by
  unfold mintAttemptInsert at h
  cases hf : fault with
  | some c => rw [hf] at h; simp at h
  | none =>
    rw [hf] at h
    dsimp only at h
    split at h
    · simp at h
    · rw [Except.ok.injEq, Prod.mk.injEq] at h
      exact ⟨h.1.symm, h.2.symm⟩

/-! ## Claim C7 -/

/-- Claim C7: the mint loop issues at most 3 insert attempts; it retries
(with freshly drawn prefix, core and salt — attempt `k` consumes the
`k`-th draws) only on a 23505 unique violation; three collisions exhaust
the retries with an error; any other database error propagates without
retry. -/
theorem c7_mint_retry_policy (cfg : CryptoCfg) (s : DbState) (accountId : String)
    (amount : Int) (rand : Nat → MintRandom) (faults : Nat → Option String)
    (now ttlMs : Int) (o : MintOutcome)
    (ho : o = generateWithdrawalToken cfg s accountId amount rand faults now ttlMs) :
    o.insertAttempts ≤ 3
    ∧ ((isUuidString accountId ∧ 0 < amount) →
        faults 0 = some "23505" → faults 1 = some "23505" → faults 2 = some "23505" →
        o.result = .error .exhausted ∧ o.insertAttempts = 3 ∧ o.state = s)
    ∧ (∀ code, (isUuidString accountId ∧ 0 < amount) →
        faults 0 = some code → code ≠ "23505" →
        o.result = .error (.dbError code) ∧ o.insertAttempts = 1 ∧ o.state = s)
    ∧ ((isUuidString accountId ∧ 0 < amount) →
        faults 0 = some "23505" → faults 1 = some "23505" → faults 2 = none →
        (s.tokens.any fun t =>
          decide (t.token_hash = hashTokenC cfg (mintPlaintext (rand 2)) (rand 2).salt)) = false →
        o.result = .ok ⟨s.nextTokenId, mintPlaintext (rand 2), amount, now + ttlMs⟩
        ∧ o.insertAttempts = 3) := by
  subst ho
  refine ⟨?_, ?_, ?_, ?_⟩
  · unfold generateWithdrawalToken
    split
    · have := mintGo_attempts_le cfg accountId amount rand faults now ttlMs MAX_RETRIES 0 s
      simpa [MAX_RETRIES] using this
    · dsimp only; omega
  · intro hv h0 h1 h2
    have e0 : mintAttemptInsert cfg accountId amount now ttlMs (rand 0) (faults 0) s
        = .error ⟨"23505"⟩ := by rw [h0]; rfl
    have e1 : mintAttemptInsert cfg accountId amount now ttlMs (rand 1) (faults 1) s
        = .error ⟨"23505"⟩ := by rw [h1]; rfl
    have e2 : mintAttemptInsert cfg accountId amount now ttlMs (rand 2) (faults 2) s
        = .error ⟨"23505"⟩ := by rw [h2]; rfl
    unfold generateWithdrawalToken
    rw [if_pos hv]
    simp [MAX_RETRIES, mintGo, e0, e1, e2]
  · intro code hv h0 hcode
    have e0 : mintAttemptInsert cfg accountId amount now ttlMs (rand 0) (faults 0) s
        = .error ⟨code⟩ := by rw [h0]; rfl
    unfold generateWithdrawalToken
    rw [if_pos hv]
    simp [MAX_RETRIES, mintGo, e0, hcode]
  · intro hv h0 h1 h2 hno
    have e0 : mintAttemptInsert cfg accountId amount now ttlMs (rand 0) (faults 0) s
        = .error ⟨"23505"⟩ := by rw [h0]; rfl
    have e1 : mintAttemptInsert cfg accountId amount now ttlMs (rand 1) (faults 1) s
        = .error ⟨"23505"⟩ := by rw [h1]; rfl
    have e2 : mintAttemptInsert cfg accountId amount now ttlMs (rand 2) (faults 2) s
        = .ok (⟨s.nextTokenId, mintPlaintext (rand 2), amount, now + ttlMs⟩,
               { s with
                  tokens := s.tokens ++ [⟨s.nextTokenId, accountId, amount,
                    hashTokenC cfg (mintPlaintext (rand 2)) (rand 2).salt, (rand 2).salt,
                    tokenFromFn 4 (rand 2).prefixInts, TokenStatus.ACTIVE, now + ttlMs, none⟩],
                  nextTokenId := s.nextTokenId + 1 }) := by
      unfold mintAttemptInsert
      rw [h2]
      dsimp only
      rw [hno]
      rfl
    unfold generateWithdrawalToken
    rw [if_pos hv]
    simp [MAX_RETRIES, mintGo, e0, e1, e2]

/-! ## Claim C9 -/

/-- Claim C9: `hashToken` digests the byte concatenation
pepper ‖ plaintext ‖ salt in exactly that order (three chained updates),
and a successful mint stores exactly that hash with the per-token
16-byte salt. -/
theorem c9_hash_input_order (cfg : CryptoCfg) (s : DbState) (accountId : String)
    (amount : Int) (rand : Nat → MintRandom) (faults : Nat → Option String)
    (now ttlMs : Int) (o : MintOutcome) (res : MintSuccess)
    (ho : o = generateWithdrawalToken cfg s accountId amount rand faults now ttlMs)
    (hsalt : ∀ i, ((rand i).salt).length = 16)
    (hok : o.result = .ok res) :
    (∀ (pt : JStr) (salt : List Nat), salt.length = 16 →
        hashTokenC cfg pt salt = cfg.sha256 (cfg.pepper ++ utf8Bytes pt ++ salt))
    ∧ ∃ t ∈ o.state.tokens, t.id = res.id ∧ t.salt.length = 16
        ∧ t.token_hash = cfg.sha256 (cfg.pepper ++ utf8Bytes res.token ++ t.salt) := by
  constructor
  · intro pt salt _
    simp [hashTokenC, hashUpdate]
  · by_cases hv : isUuidString accountId ∧ 0 < amount
    · have hoo : o = mintGo cfg accountId amount rand faults now ttlMs MAX_RETRIES 0 s := by
        rw [ho]; unfold generateWithdrawalToken; rw [if_pos hv]
      obtain ⟨j, s2, _, hins, heq⟩ :=
        mintGo_ok_attempt cfg accountId amount rand faults now ttlMs MAX_RETRIES 0 s res
          (by rw [← hoo]; exact hok)
      obtain ⟨hres, hs2⟩ := mintAttemptInsert_ok_inv cfg accountId amount now ttlMs
        (rand j) (faults j) s res s2 hins
      have hostate : o.state = s2 := by rw [hoo, heq]
      subst hres
      subst hs2
      rw [hostate]
      refine ⟨⟨s.nextTokenId, accountId, amount,
        hashTokenC cfg (mintPlaintext (rand j)) (rand j).salt, (rand j).salt,
        tokenFromFn 4 (rand j).prefixInts, TokenStatus.ACTIVE, now + ttlMs, none⟩,
        List.mem_append_right _ (List.mem_cons_self _ _), rfl, hsalt j, ?_⟩
      simp [hashTokenC, hashUpdate]
    · rw [ho] at hok
      unfold generateWithdrawalToken at hok
      rw [if_neg hv] at hok
      simp at hok

/-! ## Claim C1 -/

/-- Claim C1 (amended): redeeming a freshly minted token once before
expiry returns SUCCESS; a second redeem of the same plaintext afterwards
returns INVALID — not EXPIRED_OR_USED, because the now-USED row is
filtered out of the ACTIVE-only candidate scan and the plaintext then
matches nothing. -/
theorem c1_mint_redeem_twice (cfg : CryptoCfg) (s0 : DbState) (accountId : String)
    (amount : Int) (rand : Nat → MintRandom) (faults : Nat → Option String)
    (now0 ttlMs now1 now2 : Int) (agentId1 agentId2 metadata1 metadata2 : String)
    (o : MintOutcome) (res : MintSuccess)
    (ho : o = generateWithdrawalToken cfg s0 accountId amount rand faults now0 ttlMs)
    (hok : o.result = .ok res)
    (hIds : ∀ t ∈ s0.tokens, t.id < s0.nextTokenId)
    (hFresh : ∀ i, ∀ t ∈ s0.tokens,
      hashTokenC cfg (mintPlaintext (rand i)) t.salt ≠ t.token_hash)
    (hNow : now1 < res.expiresAt) (hA1 : agentId1 ≠ "") :
    (redeemWithdrawalToken cfg now1 o.state res.token agentId1 metadata1).result = .SUCCESS
    ∧ (redeemWithdrawalToken cfg now2
        (redeemWithdrawalToken cfg now1 o.state res.token agentId1 metadata1).state
        res.token agentId2 metadata2).result = .INVALID
    ∧ (redeemWithdrawalToken cfg now2
        (redeemWithdrawalToken cfg now1 o.state res.token agentId1 metadata1).state
        res.token agentId2 metadata2).result ≠ .EXPIRED_OR_USED := by
  by_cases hv : isUuidString accountId ∧ 0 < amount
  · have hoo : o = mintGo cfg accountId amount rand faults now0 ttlMs MAX_RETRIES 0 s0 := by
      rw [ho]; unfold generateWithdrawalToken; rw [if_pos hv]
    obtain ⟨j, s2, _, hins, heq⟩ :=
      mintGo_ok_attempt cfg accountId amount rand faults now0 ttlMs MAX_RETRIES 0 s0 res
        (by rw [← hoo]; exact hok)
    obtain ⟨hres, hs2⟩ := mintAttemptInsert_ok_inv cfg accountId amount now0 ttlMs
      (rand j) (faults j) s0 res s2 hins
    have hostate : o.state = s2 := by rw [hoo, heq]
    subst hres
    subst hs2
    rw [hostate]
    dsimp only
    have hred := redeem_minted_success cfg now1 s0.tokens s0.transactions s0.attempts
      (s0.nextTokenId + 1) s0.nextTxnId (rand j) s0.nextTokenId accountId amount
      (now0 + ttlMs) agentId1 metadata1 hA1 hNow (hFresh j)
      (fun t ht => Nat.ne_of_lt (hIds t ht))
    rw [hred]
    dsimp only
    have hmiss : ∀ t ∈ s0.tokens ++
        [(⟨s0.nextTokenId, accountId, amount,
          hashTokenC cfg (mintPlaintext (rand j)) (rand j).salt, (rand j).salt,
          tokenFromFn 4 (rand j).prefixInts, TokenStatus.USED, now0 + ttlMs,
          some now1⟩ : TokenRow)],
        t.status = TokenStatus.ACTIVE → now2 < t.expires_at →
        hashTokenC cfg (mintPlaintext (rand j)) t.salt ≠ t.token_hash := by
      intro t ht
      rcases List.mem_append.mp ht with hmem | hmem
      · exact fun _ _ => hFresh j t hmem
      · rw [List.mem_singleton] at hmem
        subst hmem
        intro hst
        simp at hst
    have h2 := redeem_no_match_invalid cfg now2
      ⟨s0.tokens ++
        [⟨s0.nextTokenId, accountId, amount,
          hashTokenC cfg (mintPlaintext (rand j)) (rand j).salt, (rand j).salt,
          tokenFromFn 4 (rand j).prefixInts, TokenStatus.USED, now0 + ttlMs, some now1⟩],
       s0.transactions ++ [⟨s0.nextTxnId, accountId, s0.nextTokenId, "WITHDRAWAL", amount,
         "SUCCESS"⟩],
       s0.attempts ++ [⟨s0.nextTokenId, agentId1, "SUCCESS", metadata1⟩],
       s0.nextTokenId + 1, s0.nextTxnId + 1⟩
      (mintPlaintext (rand j)) agentId2 metadata2 hmiss
    exact ⟨rfl, h2.1, by rw [h2.1]; decide⟩
  · rw [ho] at hok
    unfold generateWithdrawalToken at hok
    rw [if_neg hv] at hok
    simp at hok

/-- Witness for the amended C10 at a concrete input. -/
theorem c10_default_ip_witness :
    evaluateRedemption ⟨0, 0, 0, some "9.9.9.9", 0⟩ ⟨none⟩
      = evaluateRedemption ⟨0, 0, 0, some "9.9.9.9", 0⟩ ⟨some "127.0.0.1"⟩
    ∧ (evaluateRedemption ⟨0, 0, 0, some "9.9.9.9", 0⟩ ⟨none⟩).score =
        min 1 (roundTo2 (contribVelocity ⟨0, 0, 0, some "9.9.9.9", 0⟩
          + contribAmount ⟨0, 0, 0, some "9.9.9.9", 0⟩
          + contribFailed ⟨0, 0, 0, some "9.9.9.9", 0⟩ + 1/5)) :=
  c10_default_ip_amended ⟨0, 0, 0, some "9.9.9.9", 0⟩ ⟨none⟩ "9.9.9.9" rfl rfl
    (by decide) (by decide)

/-! ## Claim C2 -/

/-- Claim C2 (amended): only a SUCCESS outcome inserts a
redemption-attempt row (exactly one, with result SUCCESS); INVALID and
EXPIRED_OR_USED outcomes insert none — in particular a no-match outcome
does NOT write an attempt row. -/
theorem c2_attempt_rows (cfg : CryptoCfg) (now : Int) (s : DbState) (fullToken : JStr)
    (agentId metadata : String) :
    ((redeemWithdrawalToken cfg now s fullToken agentId metadata).result = .SUCCESS →
      ∃ tid, (redeemWithdrawalToken cfg now s fullToken agentId metadata).tokenId = some tid
        ∧ (redeemWithdrawalToken cfg now s fullToken agentId metadata).state.attempts
            = s.attempts ++ [⟨tid, agentId, "SUCCESS", metadata⟩])
    ∧ ((redeemWithdrawalToken cfg now s fullToken agentId metadata).result ≠ .SUCCESS →
        (redeemWithdrawalToken cfg now s fullToken agentId metadata).state.attempts
          = s.attempts) := by
  unfold redeemWithdrawalToken
  split
  · exact ⟨fun h => by simp at h, fun _ => rfl⟩
  · dsimp only
    split
    · exact ⟨fun h => by simp at h, fun _ => rfl⟩
    · split
      · exact ⟨fun h => by simp at h, fun _ => rfl⟩
      · split
        · exact ⟨fun h => by simp at h, fun _ => rfl⟩
        · next token htok =>
          split
          · exact ⟨fun h => by simp at h, fun _ => rfl⟩
          · exact ⟨fun _ => ⟨token.id, rfl, rfl⟩, fun h => absurd rfl h⟩

/-- Counterexample to C2 as stated: a terminal no-match (INVALID)
outcome that reached the database writes no attempt row at all — the
attempts table stays empty instead of gaining a row with
result INVALID. -/
theorem c2_counterexample :
    (redeemWithdrawalToken idCryptoCfg 0 emptyDb ("ZZZZ-ZZZZZZZZ".toList) "atm-1" "{}").result
      = .INVALID
    ∧ (redeemWithdrawalToken idCryptoCfg 0 emptyDb ("ZZZZ-ZZZZZZZZ".toList) "atm-1" "{}").dbAccessed
      = true
    ∧ (redeemWithdrawalToken idCryptoCfg 0 emptyDb
        ("ZZZZ-ZZZZZZZZ".toList) "atm-1" "{}").state.attempts.length = 0 := by decide

/-- Witness for the amended C2: a successful redemption appends exactly
one SUCCESS attempt row. -/
theorem c2_attempt_rows_witness :
    ∃ tid, (redeemWithdrawalToken idCryptoCfg 50 oneTokenDb
        ("ABCD-EFGHIJKL".toList) "atm-1" "{}").tokenId = some tid
      ∧ (redeemWithdrawalToken idCryptoCfg 50 oneTokenDb
          ("ABCD-EFGHIJKL".toList) "atm-1" "{}").state.attempts
          = oneTokenDb.attempts ++ [⟨tid, "atm-1", "SUCCESS", "{}"⟩] :=
  (c2_attempt_rows idCryptoCfg 50 oneTokenDb ("ABCD-EFGHIJKL".toList) "atm-1" "{}").1
    (by decide)

/-! ## Claim C3 -/

/-- Claim C3 (amended): the pre-transaction gate rejects (INVALID, no
database access, state untouched) exactly the structural failures —
empty token, missing dash, empty agent id, or first/second
dash-segment not of length 4/8.  The full character class of
`[A-Z0-9]{4}-[A-Z0-9]{8}` is NOT enforced, so some non-matching tokens
do reach the database (see the counterexample). -/
theorem c3_structural_gate (cfg : CryptoCfg) (now : Int) (s : DbState) (fullToken : JStr)
    (agentId metadata : String)
    (h : fullToken = [] ∨ '-' ∉ fullToken ∨ agentId = ""
      ∨ ((splitOnDash fullToken).getD 0 []).length ≠ 4
      ∨ ((splitOnDash fullToken).getD 1 []).length ≠ 8) :
    redeemWithdrawalToken cfg now s fullToken agentId metadata
      = ⟨.INVALID, none, none, false, s⟩ := by
  unfold redeemWithdrawalToken
  split
  · rfl
  · next hne =>
    dsimp only
    split
    · rfl
    · next hne2 =>
      exfalso
      push_neg at hne hne2
      rcases h with h | h | h | h | h
      · exact hne.1 h
      · exact h hne.2.1
      · exact hne.2.2 h
      · exact h hne2.1
      · exact h hne2.2

/-- Counterexample to C3 as stated: `abcd-efghijkl` does not match
`^[A-Z0-9]{4}-[A-Z0-9]{8}$` (lowercase), yet the code reaches the
database transaction with it. -/
theorem c3_counterexample :
    matchesTokenPattern ("abcd-efghijkl".toList) = false
    ∧ (redeemWithdrawalToken idCryptoCfg 0 emptyDb
        ("abcd-efghijkl".toList) "atm-1" "{}").dbAccessed = true := by decide

/-- Witness for the amended C3: a token without a dash is rejected with
no database access. -/
theorem c3_structural_gate_witness :
    redeemWithdrawalToken idCryptoCfg 0 emptyDb ("ABC".toList) "atm-1" "{}"
      = ⟨.INVALID, none, none, false, emptyDb⟩ :=
  c3_structural_gate idCryptoCfg 0 emptyDb ("ABC".toList) "atm-1" "{}"
    (Or.inr (Or.inl (by decide)))

/-! ## Claim C4 -/

/-- Claim C4 (amended): redeeming an ACTIVE token at `now ≥ expires_at`
returns INVALID — not EXPIRED_OR_USED, because the candidate query
already filters on `expires_at > now` — with no mutation; and a SUCCESS
outcome strictly requires an ACTIVE row with `now < expires_at`. -/
theorem c4_strict_expiry :
    (∀ (cfg : CryptoCfg) (now : Int) (s : DbState) (fullToken : JStr)
        (agentId metadata : String) (tok : TokenRow),
      tok ∈ s.tokens → tok.status = TokenStatus.ACTIVE → tok.expires_at ≤ now →
      hashTokenC cfg fullToken tok.salt = tok.token_hash →
      (∀ t ∈ s.tokens, hashTokenC cfg fullToken t.salt = t.token_hash → t = tok) →
      (redeemWithdrawalToken cfg now s fullToken agentId metadata).result = .INVALID
      ∧ (redeemWithdrawalToken cfg now s fullToken agentId metadata).result ≠ .EXPIRED_OR_USED
      ∧ (redeemWithdrawalToken cfg now s fullToken agentId metadata).state = s)
    ∧ (∀ (cfg : CryptoCfg) (now : Int) (s : DbState) (fullToken : JStr)
        (agentId metadata : String),
      (redeemWithdrawalToken cfg now s fullToken agentId metadata).result = .SUCCESS →
      ∃ t ∈ s.tokens, t.status = TokenStatus.ACTIVE ∧ now < t.expires_at) := by
  constructor
  · intro cfg now s fullToken agentId metadata tok _ _ hexp _ huniq
    have h := redeem_no_match_invalid cfg now s fullToken agentId metadata
      (fun t ht _ hlt hh => by
        have heq := huniq t ht hh
        subst heq
        exact absurd hlt (not_lt.mpr hexp))
    exact ⟨h.1, by rw [h.1]; decide, h.2⟩
  · intro cfg now s fullToken agentId metadata h
    exact redeem_success_active cfg now s fullToken agentId metadata h

/-- Counterexample to C4 as stated: an ACTIVE token redeemed at exactly
`now = expires_at` yields INVALID, not EXPIRED_OR_USED. -/
theorem c4_counterexample :
    demoTokenRow.status = TokenStatus.ACTIVE
    ∧ demoTokenRow.expires_at = 100
    ∧ (redeemWithdrawalToken idCryptoCfg 100 oneTokenDb
        ("ABCD-EFGHIJKL".toList) "atm-1" "{}").result = .INVALID
    ∧ (redeemWithdrawalToken idCryptoCfg 100 oneTokenDb
        ("ABCD-EFGHIJKL".toList) "atm-1" "{}").result ≠ .EXPIRED_OR_USED
    ∧ (redeemWithdrawalToken idCryptoCfg 100 oneTokenDb
        ("ABCD-EFGHIJKL".toList) "atm-1" "{}").state = oneTokenDb := by decide

/-- Witness for the amended C4 at a concrete expired ACTIVE token. -/
theorem c4_strict_expiry_witness :
    (redeemWithdrawalToken idCryptoCfg 200 oneTokenDb
        ("ABCD-EFGHIJKL".toList) "atm-1" "{}").result = .INVALID
    ∧ (redeemWithdrawalToken idCryptoCfg 200 oneTokenDb
        ("ABCD-EFGHIJKL".toList) "atm-1" "{}").result ≠ .EXPIRED_OR_USED
    ∧ (redeemWithdrawalToken idCryptoCfg 200 oneTokenDb
        ("ABCD-EFGHIJKL".toList) "atm-1" "{}").state = oneTokenDb :=
  c4_strict_expiry.1 idCryptoCfg 200 oneTokenDb ("ABCD-EFGHIJKL".toList) "atm-1" "{}"
    demoTokenRow (by decide) (by decide) (by decide) (by decide) (by decide)

/-! ## Claim C1 continued: counterexample and witness -/

/-- Counterexample to C1 as stated: mint, redeem (SUCCESS), then a
second redeem of the same plaintext returns INVALID, which is not the
claimed EXPIRED_OR_USED. -/
theorem c1_counterexample :
    (generateWithdrawalToken idCryptoCfg emptyDb demoUuid 7 (fun _ => demoRand)
      (fun _ => none) 0 1000).result = .ok ⟨0, "AAAA-AAAAAAAA".toList, 7, 1000⟩
    ∧ (redeemWithdrawalToken idCryptoCfg 100
        (generateWithdrawalToken idCryptoCfg emptyDb demoUuid 7 (fun _ => demoRand)
          (fun _ => none) 0 1000).state
        ("AAAA-AAAAAAAA".toList) "atm-9" "{}").result = .SUCCESS
    ∧ (redeemWithdrawalToken idCryptoCfg 200
        (redeemWithdrawalToken idCryptoCfg 100
          (generateWithdrawalToken idCryptoCfg emptyDb demoUuid 7 (fun _ => demoRand)
            (fun _ => none) 0 1000).state
          ("AAAA-AAAAAAAA".toList) "atm-9" "{}").state
        ("AAAA-AAAAAAAA".toList) "atm-9" "{}").result = .INVALID
    ∧ RedeemResult.INVALID ≠ RedeemResult.EXPIRED_OR_USED :=
  ⟨rfl, rfl, rfl, by decide⟩

/-- Witness for the amended C1 at a concrete mint-and-redeem-twice run. -/
theorem c1_mint_redeem_twice_witness :
    (redeemWithdrawalToken idCryptoCfg 500
        (generateWithdrawalToken idCryptoCfg emptyDb demoUuid 5 (fun _ => demoRand)
          (fun _ => none) 0 1000).state
        ("AAAA-AAAAAAAA".toList) "atm-1" "{}").result = .SUCCESS
    ∧ (redeemWithdrawalToken idCryptoCfg 2000
        (redeemWithdrawalToken idCryptoCfg 500
          (generateWithdrawalToken idCryptoCfg emptyDb demoUuid 5 (fun _ => demoRand)
            (fun _ => none) 0 1000).state
          ("AAAA-AAAAAAAA".toList) "atm-1" "{}").state
        ("AAAA-AAAAAAAA".toList) "atm-2" "{}").result = .INVALID
    ∧ (redeemWithdrawalToken idCryptoCfg 2000
        (redeemWithdrawalToken idCryptoCfg 500
          (generateWithdrawalToken idCryptoCfg emptyDb demoUuid 5 (fun _ => demoRand)
            (fun _ => none) 0 1000).state
          ("AAAA-AAAAAAAA".toList) "atm-1" "{}").state
        ("AAAA-AAAAAAAA".toList) "atm-2" "{}").result ≠ .EXPIRED_OR_USED :=
  c1_mint_redeem_twice idCryptoCfg emptyDb demoUuid 5 (fun _ => demoRand) (fun _ => none)
    0 1000 500 2000 "atm-1" "atm-2" "{}" "{}" _ ⟨0, "AAAA-AAAAAAAA".toList, 5, 1000⟩
    rfl rfl (by simp [emptyDb]) (by simp [emptyDb]) (by decide) (by decide)

/-! ## Claims C7 and C9: witnesses -/

/-- Witness for C7: three consecutive unique-violations exhaust the
retries with an error after exactly 3 insert attempts. -/
theorem c7_mint_retry_policy_witness :
    (generateWithdrawalToken idCryptoCfg emptyDb demoUuid 3 (fun _ => demoRand)
      (fun _ => some "23505") 0 1000).result = .error .exhausted
    ∧ (generateWithdrawalToken idCryptoCfg emptyDb demoUuid 3 (fun _ => demoRand)
        (fun _ => some "23505") 0 1000).insertAttempts = 3
    ∧ (generateWithdrawalToken idCryptoCfg emptyDb demoUuid 3 (fun _ => demoRand)
        (fun _ => some "23505") 0 1000).state = emptyDb :=
  (c7_mint_retry_policy idCryptoCfg emptyDb demoUuid 3 (fun _ => demoRand)
    (fun _ => some "23505") 0 1000 _ rfl).2.1 ⟨by decide, by decide⟩ rfl rfl rfl

/-- Witness for C9: the row stored by a concrete mint carries the hash
of pepper ‖ plaintext ‖ salt with a 16-byte salt. -/
theorem c9_hash_input_order_witness :
    ∃ t ∈ (generateWithdrawalToken idCryptoCfg emptyDb demoUuid 5 (fun _ => demoRand16)
        (fun _ => none) 0 1000).state.tokens,
      t.id = 0 ∧ t.salt.length = 16
      ∧ t.token_hash = idCryptoCfg.sha256 (idCryptoCfg.pepper
          ++ utf8Bytes ("AAAA-AAAAAAAA".toList) ++ t.salt) :=
  (c9_hash_input_order idCryptoCfg emptyDb demoUuid 5 (fun _ => demoRand16)
    (fun _ => none) 0 1000 _ ⟨0, "AAAA-AAAAAAAA".toList, 5, 1000⟩ rfl
    (fun _ => by show demoRand16.salt.length = 16; decide) rfl).2

/-! ## Claim C8 -/

/-- Claim C8: every Redis failure inside the rate-limiter middleware is
caught: the middleware logs a SECURITY-level error and falls open — it
never responds 429 in that case and the request proceeds to the
downstream handler.  One implication per Redis call site, guarded by
the results of the calls executed before it. -/
theorem c8_rate_limiter_fail_open (windowMs maxRequests now : Int) (env : RedisEnv) :
    (limiterFailOpen.status429 = false ∧ limiterFailOpen.proceeded = true
      ∧ ("error", "Rate limiter Redis error") ∈ limiterFailOpen.secLogs)
    ∧ (∀ e, env.zremrangebyscore = .error e →
        rateLimiterMiddleware windowMs maxRequests env now = limiterFailOpen)
    ∧ (∀ v e, env.zremrangebyscore = .ok v → env.zcard = .error e →
        rateLimiterMiddleware windowMs maxRequests env now = limiterFailOpen)
    ∧ (∀ v cnt e, env.zremrangebyscore = .ok v → env.zcard = .ok cnt →
        cnt ≥ maxRequests → env.ttl = .error e →
        rateLimiterMiddleware windowMs maxRequests env now = limiterFailOpen)
    ∧ (∀ v cnt e, env.zremrangebyscore = .ok v → env.zcard = .ok cnt →
        cnt < maxRequests → env.zadd = .error e →
        rateLimiterMiddleware windowMs maxRequests env now = limiterFailOpen)
    ∧ (∀ v cnt v2 e, env.zremrangebyscore = .ok v → env.zcard = .ok cnt →
        cnt < maxRequests → env.zadd = .ok v2 → env.expire = .error e →
        rateLimiterMiddleware windowMs maxRequests env now = limiterFailOpen) := by
  refine ⟨⟨rfl, rfl, by simp [limiterFailOpen]⟩, ?_, ?_, ?_, ?_, ?_⟩
  · intro e h1
    unfold rateLimiterMiddleware
    rw [h1]
  · intro v e h1 h2
    unfold rateLimiterMiddleware
    rw [h1, h2]
  · intro v cnt e h1 h2 hge h3
    unfold rateLimiterMiddleware
    rw [h1, h2]
    dsimp only
    rw [if_pos hge, h3]
  · intro v cnt e h1 h2 hlt h4
    unfold rateLimiterMiddleware
    rw [h1, h2]
    dsimp only
    rw [if_neg (not_le.mpr hlt), h4]
  · intro v cnt v2 e h1 h2 hlt h4 h5
    unfold rateLimiterMiddleware
    rw [h1, h2]
    dsimp only
    rw [if_neg (not_le.mpr hlt), h4, h5]

/-- Witness for C8: a failing eviction call falls open. -/
theorem c8_rate_limiter_fail_open_witness :
    rateLimiterMiddleware 60000 10 ⟨.error "ECONNREFUSED", .ok 0, .ok 0, .ok 0, .ok 0⟩ 0
      = limiterFailOpen :=
  (c8_rate_limiter_fail_open 60000 10 0
    ⟨.error "ECONNREFUSED", .ok 0, .ok 0, .ok 0, .ok 0⟩).2.1 "ECONNREFUSED" rfl

end Cardless
